import Mathlib

set_option autoImplicit false

/- Verification of the crypto-trading-bot repository: the signal pipeline
   (indicators, evaluator, position/risk manager), the mobile strategy-test
   screen, the mobile dashboard WebSocket layer, and the live dispatcher.
   Prices and indicator values are modelled as rationals; JavaScript numbers
   are embedded as `Option` values where absence/undefined matters. -/

/-- OHLCV candle for one (symbol, timeframe) bucket (spec section 3). -/
structure Candle where
  open_time : ℕ
  openPrice : ℚ
  highPrice : ℚ
  lowPrice : ℚ
  closePrice : ℚ
  volume : ℚ
deriving DecidableEq

/-- Strategy configuration consumed by the pipeline (spec section 6). -/
structure StrategyConfig where
  bb_period : ℕ
  bb_std : ℚ
  macd_fast : ℕ
  macd_slow : ℕ
  macd_signal_period : ℕ
  rsi_period : ℕ
  rsi_filter_enabled : Bool
  rsi_buy_max : ℚ
  rsi_sell_min : ℚ
  trend_filter_enabled : Bool
  trend_ema_period : ℕ
  touch_tolerance_pct : ℚ
  stop_atr_multiplier : ℚ
  trail_atr_multiplier : ℚ
  time_exit_bars : ℕ
  fee_pct : ℚ
  slippage_pct : ℚ
  initial_cash : ℚ
deriving DecidableEq

/-- Per-candle computed indicator values (spec section 3); the trend EMA is
carried in the snapshot because the evaluator's trend filter reads it. -/
structure IndicatorSnapshot where
  bb_upper : ℚ
  bb_mid : ℚ
  bb_lower : ℚ
  macd : ℚ
  macd_signal : ℚ
  macd_hist : ℚ
  rsi : ℚ
  atr : ℚ
  trend_ema : ℚ
deriving DecidableEq

/-- Kind of a SignalEvent. -/
inductive SignalKind where
  | buy
  | sell
  | neutral
deriving DecidableEq

/-- Modelled from the spec: BUY candidate condition of the Signal Evaluator
(spec 4.2); the evaluator source (src/strategy/rules.py per the docs README)
is not under src/. Close at or below the tolerance-widened lower band, MACD
strictly below its signal line on the previous candle and at-or-above on the
current one, and the optional RSI / trend filters. -/
def buySignalB (cfg : StrategyConfig) (p c : IndicatorSnapshot) (close : ℚ) : Bool :=
  decide (close ≤ c.bb_lower * (1 + cfg.touch_tolerance_pct)) &&
  decide (p.macd < p.macd_signal) &&
  decide (c.macd_signal ≤ c.macd) &&
  (!cfg.rsi_filter_enabled || decide (c.rsi ≤ cfg.rsi_buy_max)) &&
  (!cfg.trend_filter_enabled || decide (c.trend_ema ≤ close))

/-- Modelled from the spec: SELL candidate condition of the Signal Evaluator
(spec 4.2), mirror of the BUY condition. -/
def sellSignalB (cfg : StrategyConfig) (p c : IndicatorSnapshot) (close : ℚ) : Bool :=
  decide (c.bb_upper * (1 - cfg.touch_tolerance_pct) ≤ close) &&
  decide (p.macd_signal < p.macd) &&
  decide (c.macd ≤ c.macd_signal) &&
  (!cfg.rsi_filter_enabled || decide (cfg.rsi_sell_min ≤ c.rsi)) &&
  (!cfg.trend_filter_enabled || decide (close ≤ c.trend_ema))

/-- Modelled from the spec: tie policy of the evaluator (spec 4.2) — exactly
one kind per candle, and a candle on which both candidate conditions hold
resolves to NEUTRAL. -/
def decideKind (b s : Bool) : SignalKind :=
  match b, s with
  | true, false => SignalKind.buy
  | false, true => SignalKind.sell
  | _, _ => SignalKind.neutral

/-- Modelled from the spec: the Signal Evaluator (spec 4.2). Undefined
(warm-up) snapshots yield NEUTRAL only. -/
def evalSignal (cfg : StrategyConfig) (prev cur : Option IndicatorSnapshot) (close : ℚ) : SignalKind :=
  match prev, cur with
  | some p, some c => decideKind (buySignalB cfg p c close) (sellSignalB cfg p c close)
  | _, _ => SignalKind.neutral

/-- Rational square-root approximation (floor of the square root of num*den,
over den); a deterministic stand-in for the floating-point square root used
by the Bollinger standard deviation. -/
def ratSqrt (q : ℚ) : ℚ :=
  if q ≤ 0 then 0 else ((Nat.sqrt (q.num.toNat * q.den) : ℤ) : ℚ) / (q.den : ℚ)

/-- ATR smoothing period; the spec's configuration struct carries no ATR
period field, so the standard 14 is used. -/
def atrPeriod : ℕ := 14

/-- Modelled from the spec: running state of the Indicator Pipeline
(spec 4.1) — incremental EMAs for MACD and the trend filter, Wilder
averages for RSI and ATR, and the recent closes for the Bollinger window. -/
structure IndState where
  count : ℕ
  closes : List ℚ
  emaFast : Option ℚ
  emaSlow : Option ℚ
  emaSig : Option ℚ
  emaTrend : Option ℚ
  avgGain : Option ℚ
  avgLoss : Option ℚ
  atrAvg : Option ℚ
  prevClose : Option ℚ
deriving DecidableEq

/-- One exponential-moving-average update with smoothing 2/(n+1), seeded by
the first observation. -/
def emaStep (n : ℕ) (prev : Option ℚ) (x : ℚ) : ℚ :=
  match prev with
  | none => x
  | some e => (2 * x + ((n : ℚ) - 1) * e) / ((n : ℚ) + 1)

/-- One Wilder-smoothing update (used by RSI and ATR), seeded by the first
observation. -/
def wilderStep (n : ℕ) (prev : Option ℚ) (x : ℚ) : ℚ :=
  match prev with
  | none => x
  | some a => (a * ((n : ℚ) - 1) + x) / (n : ℚ)

/-- Modelled from the spec: advancing the Indicator Pipeline state by one
closed candle (spec 4.1), using only that candle and prior state. -/
def indUpdate (cfg : StrategyConfig) (st : IndState) (c : Candle) : IndState :=
  let emaFastN := emaStep cfg.macd_fast st.emaFast c.closePrice
  let emaSlowN := emaStep cfg.macd_slow st.emaSlow c.closePrice
  let macdN := emaFastN - emaSlowN
  let gainLoss :=
    match st.prevClose with
    | none => (st.avgGain, st.avgLoss)
    | some pc =>
        let ch := c.closePrice - pc
        (some (wilderStep cfg.rsi_period st.avgGain (max ch 0)),
         some (wilderStep cfg.rsi_period st.avgLoss (max (-ch) 0)))
  let tr :=
    match st.prevClose with
    | none => c.highPrice - c.lowPrice
    | some pc => max (c.highPrice - c.lowPrice) (max |c.highPrice - pc| |c.lowPrice - pc|)
  { count := st.count + 1,
    closes := c.closePrice :: st.closes,
    emaFast := some emaFastN,
    emaSlow := some emaSlowN,
    emaSig := some (emaStep cfg.macd_signal_period st.emaSig macdN),
    emaTrend := some (emaStep cfg.trend_ema_period st.emaTrend c.closePrice),
    avgGain := gainLoss.1,
    avgLoss := gainLoss.2,
    atrAvg := some (wilderStep atrPeriod st.atrAvg tr),
    prevClose := some c.closePrice }

/-- Warm-up window: the maximum of the configured indicator periods. -/
def maxPeriod (cfg : StrategyConfig) : ℕ :=
  [cfg.bb_period, cfg.macd_fast, cfg.macd_slow, cfg.macd_signal_period,
   cfg.rsi_period, cfg.trend_ema_period, atrPeriod].foldr max 0

/-- Modelled from the spec: the IndicatorSnapshot produced for the current
candle, undefined until the warm-up window has elapsed (spec 4.1 and 3). -/
def mkSnapshot (cfg : StrategyConfig) (st : IndState) : Option IndicatorSnapshot :=
  if st.count < maxPeriod cfg then none
  else
    match st.emaFast, st.emaSlow, st.emaSig, st.emaTrend, st.avgGain, st.avgLoss, st.atrAvg with
    | some ef, some es, some sg, some te, some ag, some al, some atrv =>
        let window := st.closes.take cfg.bb_period
        let n : ℚ := (cfg.bb_period : ℚ)
        let mean := window.foldr (fun x a => x + a) 0 / n
        let varV := window.foldr (fun x a => (x - mean) * (x - mean) + a) 0 / n
        let sd := ratSqrt varV
        let macdV := ef - es
        some { bb_upper := mean + cfg.bb_std * sd, bb_mid := mean,
               bb_lower := mean - cfg.bb_std * sd,
               macd := macdV, macd_signal := sg, macd_hist := macdV - sg,
               rsi := if al = 0 then 100 else 100 - 100 / (1 + ag / al),
               atr := atrv, trend_ema := te }
    | _, _, _, _, _, _, _ => none

/-- Pipeline state threaded candle-by-candle: indicator state plus the
previous candle's snapshot (needed for the crossover comparison). -/
structure PipeState where
  ind : IndState
  prevSnap : Option IndicatorSnapshot
deriving DecidableEq

def initIndState : IndState :=
  { count := 0, closes := [], emaFast := none, emaSlow := none, emaSig := none,
    emaTrend := none, avgGain := none, avgLoss := none, atrAvg := none, prevClose := none }

def initPipeState : PipeState := { ind := initIndState, prevSnap := none }

/-- Modelled from the spec: one closed candle through Indicator Pipeline and
Signal Evaluator (spec 4.1 and 4.2), yielding the candle's SignalKind and the
next pipeline state. -/
def stepCandle (cfg : StrategyConfig) (st : PipeState) (c : Candle) : SignalKind × PipeState :=
  let indN := indUpdate cfg st.ind c
  let snap := mkSnapshot cfg indN
  (evalSignal cfg st.prevSnap snap c.closePrice, { ind := indN, prevSnap := snap })

/-- The signal sequence emitted while replaying candles from a given state. -/
def runSignalsFrom (cfg : StrategyConfig) (st : PipeState) : List Candle → List SignalKind
  | [] => []
  | c :: rest =>
      let r := stepCandle cfg st c
      r.1 :: runSignalsFrom cfg r.2 rest

/-- Modelled from the spec: the full signal sequence for an ordered candle
sequence, one SignalKind per closed candle. -/
def runSignals (cfg : StrategyConfig) (l : List Candle) : List SignalKind :=
  runSignalsFrom cfg initPipeState l

/-- An OPEN position owned by the Position and Risk Manager (spec section 3). -/
structure OpenPos where
  entry_price : ℚ
  entry_time : ℕ
  stop_price : ℚ
  trailing_stop_price : ℚ
  bars_held : ℕ
  size : ℚ
deriving DecidableEq

/-- Position lifecycle state: FLAT or OPEN. -/
inductive PosState where
  | flat
  | opened (p : OpenPos)
deriving DecidableEq

/-- Exit reasons, in priority order stop-hit, signal-exit, time-exit. -/
inductive ExitReason where
  | stopHit
  | signalExit
  | timeExit
deriving DecidableEq

/-- Trade record emitted on exit (spec 4.3). -/
structure TradeRecord where
  entry_price : ℚ
  exit_price : ℚ
  entry_time : ℕ
  exit_time : ℕ
  bars_held : ℕ
  exit_reason : ExitReason
  realized_pnl : ℚ
deriving DecidableEq

/-- Per-candle input seen by the Position and Risk Manager: candle time and
close, the current ATR, and whether a SELL signal was emitted this candle. -/
structure RiskInput where
  time : ℕ
  close : ℚ
  atr : ℚ
  sellSignal : Bool
deriving DecidableEq

/-- Modelled from the spec: transition to OPEN on a BUY signal (spec 4.3);
fees and slippage adjust the execution price, the stop sits
atr times stop multiplier below entry, and the trailing stop starts there. -/
def enterPosition (cfg : StrategyConfig) (time : ℕ) (price atr size : ℚ) : OpenPos :=
  let eff := price * (1 + cfg.fee_pct + cfg.slippage_pct)
  { entry_price := eff, entry_time := time,
    stop_price := eff - atr * cfg.stop_atr_multiplier,
    trailing_stop_price := eff - atr * cfg.stop_atr_multiplier,
    bars_held := 0, size := size }

/-- Modelled from the spec: processing one closed candle while OPEN
(spec 4.3) — increment bars_held, ratchet the trailing stop to
max(previous, close - atr * trail multiplier), then test the exit conditions
in priority order stop-hit, signal-exit, time-exit. -/
def processOpenCandle (cfg : StrategyConfig) (p : OpenPos) (inp : RiskInput) :
    PosState × Option TradeRecord :=
  let bars := p.bars_held + 1
  let trail := max p.trailing_stop_price (inp.close - inp.atr * cfg.trail_atr_multiplier)
  let exitEff := inp.close * (1 - cfg.fee_pct - cfg.slippage_pct)
  let exitAt : ExitReason → PosState × Option TradeRecord := fun r =>
    (PosState.flat,
     some { entry_price := p.entry_price, exit_price := exitEff,
            entry_time := p.entry_time, exit_time := inp.time, bars_held := bars,
            exit_reason := r, realized_pnl := (exitEff - p.entry_price) * p.size })
  if inp.close ≤ trail then exitAt ExitReason.stopHit
  else if inp.sellSignal then exitAt ExitReason.signalExit
  else if cfg.time_exit_bars ≤ bars then exitAt ExitReason.timeExit
  else (PosState.opened { p with trailing_stop_price := trail, bars_held := bars }, none)

/-- Risk-manager step on either lifecycle state: FLAT is unchanged by candle
processing (entries happen on BUY signals, not here). -/
def processCandle (cfg : StrategyConfig) : PosState → RiskInput → PosState × Option TradeRecord
  | PosState.flat, _ => (PosState.flat, none)
  | PosState.opened p, inp => processOpenCandle cfg p inp

/-- Folding the risk-manager step over consecutive closed candles. -/
def processMany (cfg : StrategyConfig) : PosState → List RiskInput → PosState
  | st, [] => st
  | st, inp :: rest => processMany cfg (processCandle cfg st inp).1 rest

/-- BacktestResult as declared in src/TraderMobile/src/types/index.ts. -/
structure BacktestResultM where
  total_return : ℚ
  sharpe_ratio : ℚ
  max_drawdown : ℚ
  win_rate : ℚ
  total_trades : ℤ
  start_date : String
  end_date : String
  final_portfolio_value : ℚ
  equity_curve : List (String × ℚ)
deriving DecidableEq

/-- The six Math.random() draws consumed by the mock result of
StrategyTestScreen.handleTestStrategy, in evaluation order. -/
structure RandomDraws where
  r1 : ℚ
  r2 : ℚ
  r3 : ℚ
  r4 : ℚ
  r5 : ℚ
  r6 : ℚ
deriving DecidableEq

/-- The mock BacktestResult built by handleTestStrategy
(src/TraderMobile/src/screens/StrategyTestScreen.tsx lines 76-86), with the
Math.random() draws made explicit inputs. -/
def mockBacktestResult (rng : RandomDraws) : BacktestResultM :=
  { total_return := rng.r1 * (2 / 5) - 1 / 10,
    sharpe_ratio := rng.r2 * 2 + 1 / 2,
    max_drawdown := rng.r3 * (3 / 10),
    win_rate := rng.r4 * (2 / 5) + 1 / 2,
    total_trades := ⌊rng.r5 * 100⌋ + 20,
    start_date := "2024-01-01",
    end_date := "2024-12-31",
    final_portfolio_value := 10000 + rng.r6 * 5000,
    equity_curve := [] }

/-- The parameters state of StrategyTestScreen: each text field is either a
positive/zero/negative number or missing/non-numeric (`none`, covering the
falsy-empty and NaN cases of the TypeScript checks). -/
structure TestParameters where
  bb_period : Option ℚ
  bb_std : Option ℚ
  macd_fast : Option ℚ
  macd_slow : Option ℚ
  macd_signal : Option ℚ
  rsi_period : Option ℚ
  rsi_overbought : Option ℚ
  rsi_oversold : Option ℚ
  position_size : Option ℚ
  stop_loss : Option ℚ
  take_profit : Option ℚ
deriving DecidableEq

/-- One required-parameter check of validateParameters:
`!value || isNaN(Number(value)) || Number(value) <= 0` fails the field. -/
def validParamValue (v : Option ℚ) : Bool :=
  match v with
  | none => false
  | some q => decide (0 < q)

/-- `Number(v)` once the field is known numeric (0 for the impossible cases). -/
def paramNum (v : Option ℚ) : ℚ := v.getD 0

/-- The loop of validateParameters over the six required fields
(src/TraderMobile/src/screens/StrategyTestScreen.tsx lines 50-59). -/
def requiredParamsValid (p : TestParameters) : Bool :=
  validParamValue p.bb_period && validParamValue p.bb_std &&
  validParamValue p.macd_fast && validParamValue p.macd_slow &&
  validParamValue p.macd_signal && validParamValue p.rsi_period

/-- validateParameters from StrategyTestScreen: the six required fields must
be numeric and positive, and macd_fast must be strictly below macd_slow.
No other constraint is checked. -/
def validateParameters (p : TestParameters) : Bool :=
  requiredParamsValid p && decide (paramNum p.macd_fast < paramNum p.macd_slow)

/-- handleTestStrategy (StrategyTestScreen lines 69-99): abort with no result
when validation fails, otherwise produce the Math.random()-based mock result. -/
def handleTestStrategy (p : TestParameters) (rng : RandomDraws) : Option BacktestResultM :=
  if validateParameters p then some (mockBacktestResult rng) else none

/-- The initial parameters state of StrategyTestScreen (lines 29-41). -/
def defaultTestParameters : TestParameters :=
  { bb_period := some 20, bb_std := some 2, macd_fast := some 12,
    macd_slow := some 26, macd_signal := some 9, rsi_period := some 14,
    rsi_overbought := some 70, rsi_oversold := some 30,
    position_size := some (1 / 10), stop_loss := some (1 / 50),
    take_profit := some (1 / 25) }

/-- defaultTestParameters with the RSI buy-side threshold at or above the
sell-side threshold (rsi_buy_max is played by rsi_oversold, rsi_sell_min by
rsi_overbought in this screen). -/
def rsiViolatingParameters : TestParameters :=
  { defaultTestParameters with rsi_oversold := some 70, rsi_overbought := some 30 }

/-- Stored per-symbol entry of the PriceContext prices map. -/
structure PriceEntry where
  price : ℚ
  change : ℚ
  timestamp : String
deriving DecidableEq

/-- The `data` payload of a symbol_update message; fields may be absent. -/
structure PricePayload where
  price : Option ℚ
  change : Option ℚ
  timestamp : Option String
deriving DecidableEq

/-- A WebSocket event as seen by PriceContext.onmessage: either a JSON parse
failure (caught, logged, dropped) or a parsed object with the fields the
handler reads; `symbols` carries the multi_symbol_update batch. -/
inductive RawMsg where
  | malformed
  | parsed (type : String) (symbol : Option String) (data : Option PricePayload)
      (price : Option ℚ) (change : Option ℚ) (timestamp : Option String)
      (symbols : Option (List (String × PricePayload)))
deriving DecidableEq

/-- `x || 0` on an optional number (0 stays 0). -/
def changeOr0 (c : Option ℚ) : ℚ := c.getD 0

/-- `x || now` on an optional timestamp string (empty string is falsy). -/
def tsOrNow (t : Option String) (now : String) : String :=
  match t with
  | some ts => if ts = "" then now else ts
  | none => now

/-- The prices map kept by PriceContext, as a JS-object-style partial map. -/
def PriceMap : Type := String → Option PriceEntry

/-- Setting one key of the prices map (object spread plus one key). -/
def setPrice (m : PriceMap) (s : String) (e : PriceEntry) : PriceMap :=
  fun t => if t = s then some e else m t

/-- The symbol_update branch of PriceContext.onmessage (PriceContext.tsx
lines 66-81): requires a truthy symbol, a data object and a truthy
data.price, then rewrites only that symbol's entry. -/
def symbolUpdateBlock (now : String) (msgSymbol : Option String)
    (msgData : Option PricePayload) (m : PriceMap) : PriceMap :=
  match msgSymbol, msgData with
  | some s, some d =>
      if s = "" then m
      else
        match d.price with
        | some pr =>
            if pr = 0 then m
            else setPrice m s
              { price := pr, change := changeOr0 d.change, timestamp := tsOrNow d.timestamp now }
        | none => m
  | _, _ => m

/-- The legacy price_update / signal_update branch (PriceContext.tsx lines
84-96): strips the USDT suffix from the symbol and reads price, change and
timestamp from the top level of the message. -/
def legacyBlock (now : String) (symbol : Option String) (price : Option ℚ)
    (change : Option ℚ) (timestamp : Option String) (m : PriceMap) : PriceMap :=
  let s := (symbol.getD "").replace "USDT" ""
  if s = "" then m
  else
    match price with
    | some pr =>
        if pr = 0 then m
        else setPrice m s
          { price := pr, change := changeOr0 change, timestamp := tsOrNow timestamp now }
    | none => m

/-- The multi_symbol_update branch (PriceContext.tsx lines 99-112): batch of
per-symbol payloads, entries with truthy price only. -/
def multiBlock (now : String) (symbols : Option (List (String × PricePayload)))
    (m : PriceMap) : PriceMap :=
  match symbols with
  | none => m
  | some l =>
      l.foldl (fun acc kv =>
        match kv.2.price with
        | some pr =>
            if pr = 0 then acc
            else setPrice acc kv.1
              { price := pr, change := changeOr0 kv.2.change,
                timestamp := tsOrNow kv.2.timestamp now }
        | none => acc) m

/-- PriceContext.onmessage (PriceContext.tsx lines 60-116). The three type
checks run in sequence as in the source; `now` stands for
`new Date().toISOString()`; a JSON parse failure is caught and drops the
message with the map unchanged. -/
def priceOnMessage (now : String) (m : PriceMap) : RawMsg → PriceMap
  | RawMsg.malformed => m
  | RawMsg.parsed type symbol data price change timestamp symbols =>
      let m1 := if type = "symbol_update" then symbolUpdateBlock now symbol data m else m
      let m2 := if type = "price_update" ∨ type = "signal_update" then
                  legacyBlock now symbol price change timestamp m1 else m1
      if type = "multi_symbol_update" then multiBlock now symbols m2 else m2

/-- One dashboard card as stored in DashboardScreen cryptoData; every field
is optional to mirror partially-populated JS objects after normalization. -/
structure CardM where
  price : Option ℚ
  signalV : Option String
  rsiV : Option ℚ
  macdV : Option ℚ
  bbUpper : Option ℚ
  bbLower : Option ℚ
  timestamp : Option String
deriving DecidableEq

/-- The card all of whose fields are JS-undefined (spread of undefined). -/
def emptyCardM : CardM := ⟨none, none, none, none, none, none, none⟩

/-- `if (incoming.x !== undefined) next.x = incoming.x` of
applyPartialUpdate. -/
def updField {α : Type} : Option α → Option α → Option α
  | some v, _ => some v
  | none, prev => prev

/-- applyPartialUpdate from DashboardScreen.handleWebSocketMessage
(DashboardScreen.tsx lines 239-252): field-wise overlay of the incoming
normalized card on the previous one. -/
def applyPartialUpdate (prev inc : CardM) : CardM :=
  { price := updField inc.price prev.price,
    signalV := updField inc.signalV prev.signalV,
    rsiV := updField inc.rsiV prev.rsiV,
    macdV := updField inc.macdV prev.macdV,
    bbUpper := updField inc.bbUpper prev.bbUpper,
    bbLower := updField inc.bbLower prev.bbLower,
    timestamp := updField inc.timestamp prev.timestamp }

/-- The cryptoData map kept by DashboardScreen. -/
def DashMap : Type := String → Option CardM

/-- The symbol_update branch of DashboardScreen.handleWebSocketMessage
(DashboardScreen.tsx lines 254-264): spread of the previous map with only
the entry at message.symbol rewritten; a missing previous card spreads as
the empty object. The incoming card is the output of normalizePayload
(alternative field spellings already coalesced and coerced by toNum). -/
def dashSymbolUpdate (st : DashMap) (sym : String) (inc : CardM) : DashMap :=
  fun t => if t = sym then some (applyPartialUpdate ((st sym).getD emptyCardM) inc) else st t

/-- WebSocket readyState values as tested by the keepalive guards. -/
inductive WsReadyState where
  | connecting
  | wsOpen
  | closing
  | closedState
deriving DecidableEq

/-- JSON text of the PriceContext keepalive message
`JSON.stringify(\x7b type: 'ping' \x7d)`. -/
def pingJsonMsg : String := "\x7b\"type\":\"ping\"\x7d"

/-- JSON text of the matching keepalive acknowledgement. -/
def pongJsonMsg : String := "\x7b\"type\":\"pong\"\x7d"

/-- PriceContext schedules its ping every 30000 ms (PriceContext.tsx line 57). -/
def priceContextPingIntervalMs : ℕ := 30000

/-- Body of the PriceContext setInterval callback (PriceContext.tsx lines
52-57): send the JSON ping only when the socket is OPEN. -/
def priceContextPingOnTick (st : WsReadyState) : Option String :=
  if st = WsReadyState.wsOpen then some pingJsonMsg else none

/-- DashboardScreen schedules its keep-alive every 25000 ms
(DashboardScreen.tsx line 151). -/
def dashKeepAliveIntervalMs : ℕ := 25000

/-- Body of the DashboardScreen keep-alive setInterval callback
(DashboardScreen.tsx lines 145-151): send the raw string "ping" only when
the socket is OPEN. -/
def dashKeepAliveOnTick (st : WsReadyState) : Option String :=
  if st = WsReadyState.wsOpen then some "ping" else none

/-- Modelled from the spec: the WebSocket server (not under src/)
acknowledges a keepalive ping with a pong message (spec section 6). -/
def serverKeepAliveReply (msg : String) : Option String :=
  if msg = pingJsonMsg then some pongJsonMsg else none

/-- A message delivered to a dispatcher client: the synthetic initial
snapshot for a symbol, or a live update. -/
inductive DispMsg where
  | initMsg (sym : String) (payload : ℕ)
  | liveMsg (sym : String) (payload : ℕ)
deriving DecidableEq

/-- The symbol a dispatcher message concerns. -/
def DispMsg.symOf : DispMsg → String
  | DispMsg.initMsg s _ => s
  | DispMsg.liveMsg s _ => s

/-- Whether a dispatcher message is a live update. -/
def DispMsg.isLive : DispMsg → Bool
  | DispMsg.liveMsg _ _ => true
  | _ => false

/-- A connected dispatcher client: id, subscribed symbols, and the ordered
sequence of messages delivered to it. -/
structure ClientConn where
  cid : ℕ
  subs : List String
  inbox : List DispMsg
deriving DecidableEq

/-- Modelled from the spec: Live Dispatcher state (spec 4.5) — last cached
update per symbol (most recent first) and the connected clients. -/
structure DispState where
  cache : List (String × ℕ)
  clients : List ClientConn
deriving DecidableEq

/-- Dispatcher-level events: a pipeline update broadcast for a symbol, or a
client connecting with its subscriptions. -/
inductive DispEvent where
  | broadcast (sym : String) (payload : ℕ)
  | connect (cid : ℕ) (subs : List String)
deriving DecidableEq

/-- Most recent cached update for a symbol. -/
def cacheLookup : List (String × ℕ) → String → Option ℕ
  | [], _ => none
  | kv :: rest, s => if kv.1 = s then some kv.2 else cacheLookup rest s

/-- Modelled from the spec: the synthetic initial messages built for a
late-joining client from the last cached update per subscribed symbol
(spec 4.5). -/
def initialInbox (cache : List (String × ℕ)) : List String → List DispMsg
  | [] => []
  | s :: rest =>
      match cacheLookup cache s with
      | some p => DispMsg.initMsg s p :: initialInbox cache rest
      | none => initialInbox cache rest

/-- Delivery of one live update to one client: append to the inbox only when
the client subscribes to the symbol. -/
def deliverLive (s : String) (p : ℕ) (c : ClientConn) : ClientConn :=
  if s ∈ c.subs then { c with inbox := c.inbox ++ [DispMsg.liveMsg s p] } else c

/-- Modelled from the spec: one dispatcher transition (spec 4.5) — a
broadcast refreshes the cache and fans out to subscribed clients; a connect
adds the client with its synthetic initial messages already delivered, ahead
of any later live update. -/
def dispStep (st : DispState) : DispEvent → DispState
  | DispEvent.broadcast s p =>
      { cache := (s, p) :: st.cache, clients := st.clients.map (deliverLive s p) }
  | DispEvent.connect cid subs =>
      { cache := st.cache,
        clients := ⟨cid, subs, initialInbox st.cache subs⟩ :: st.clients }

/-- Running the dispatcher over a sequence of events. -/
def dispRun (st : DispState) : List DispEvent → DispState
  | [] => st
  | e :: rest => dispRun (dispStep st e) rest

def emptyDispState : DispState := ⟨[], []⟩

/-- First client with the given id. -/
def findClientIn : List ClientConn → ℕ → Option ClientConn
  | [], _ => none
  | c :: rest, cid => if c.cid = cid then some c else findClientIn rest cid

def findClient (st : DispState) (cid : ℕ) : Option ClientConn :=
  findClientIn st.clients cid

/-- The subsequence of an inbox concerning one symbol, oldest first. -/
def msgsFor (s : String) : List DispMsg → List DispMsg
  | [] => []
  | m :: rest => if m.symOf = s then m :: msgsFor s rest else msgsFor s rest

/-- The Realistic1 configuration from the docs (BB 20/2.0, MACD 12/26/9,
RSI 14, filters off, ATR stops 2.0x with 2.5x trailing, 100-bar time exit,
fee 0.04 percent, slippage 0.05 percent). -/
def sampleConfig : StrategyConfig :=
  { bb_period := 20, bb_std := 2, macd_fast := 12, macd_slow := 26,
    macd_signal_period := 9, rsi_period := 14, rsi_filter_enabled := false,
    rsi_buy_max := 50, rsi_sell_min := 50, trend_filter_enabled := false,
    trend_ema_period := 200, touch_tolerance_pct := 0,
    stop_atr_multiplier := 2, trail_atr_multiplier := 5 / 2,
    time_exit_bars := 100, fee_pct := 1 / 2500, slippage_pct := 1 / 2000,
    initial_cash := 10000 }

/-- A concrete closed candle used as a test input. -/
def sampleCandle : Candle :=
  { open_time := 0, openPrice := 100, highPrice := 110, lowPrice := 90,
    closePrice := 105, volume := 5 }

/-- A second concrete closed candle used as a test input. -/
def sampleCandle2 : Candle :=
  { open_time := 1, openPrice := 105, highPrice := 115, lowPrice := 95,
    closePrice := 100, volume := 6 }

/-- A concrete OPEN position used as a test input. -/
def sampleOpenPos : OpenPos :=
  { entry_price := 100, entry_time := 0, stop_price := 90,
    trailing_stop_price := 90, bars_held := 0, size := 1 }

/-- A concrete risk-manager candle input on which the position stays OPEN. -/
def sampleRiskInput : RiskInput :=
  { time := 1, close := 100, atr := 2, sellSignal := false }

/-- defaultTestParameters with the MACD fast period at or above the slow
period (a configuration violating the fast-below-slow constraint). -/
def invalidTestParameters : TestParameters :=
  { defaultTestParameters with macd_fast := some 26, macd_slow := some 12 }

/-- Claim C1: the in-repo backtest operation is not deterministic — the
spec requires identical BacktestResult values for repeated runs on the same
candle sequence and configuration, but handleTestStrategy fabricates its
result from fresh Math.random() draws, so two runs on the identical default
parameters differ (here in total_trades among other fields). -/
theorem mock_backtest_not_deterministic :
    handleTestStrategy defaultTestParameters ⟨0, 0, 0, 0, 0, 0⟩ ≠
      handleTestStrategy defaultTestParameters ⟨1 / 2, 1 / 2, 1 / 2, 1 / 2, 1 / 2, 1 / 2⟩ := by
  have hv : validateParameters defaultTestParameters = true := by
    simp only [validateParameters, requiredParamsValid, validParamValue, paramNum,
      defaultTestParameters, Option.getD_some, Bool.and_eq_true, decide_eq_true_eq]
    norm_num
  simp only [handleTestStrategy, hv, if_true]
  intro h
  have h2 := congrArg BacktestResultM.final_portfolio_value (Option.some.inj h)
  simp only [mockBacktestResult] at h2
  norm_num at h2

/-- Claim C6, counterexample: a configuration whose RSI buy-side threshold
(70) is at or above its sell-side threshold (30) — violating the
rsi_buy_max below rsi_sell_min constraint of the claim — nevertheless
passes validateParameters, and the backtest runs and produces a result. -/
theorem rsi_constraint_not_validated :
    validateParameters rsiViolatingParameters = true ∧
      handleTestStrategy rsiViolatingParameters ⟨0, 0, 0, 0, 0, 0⟩ ≠ none := by
  have hv : validateParameters rsiViolatingParameters = true := by
    simp only [validateParameters, requiredParamsValid, validParamValue, paramNum,
      rsiViolatingParameters, defaultTestParameters, Option.getD_some, Bool.and_eq_true,
      decide_eq_true_eq]
    norm_num
  exact ⟨hv, by simp [handleTestStrategy, hv]⟩

/-- Claim C6 (amended): whenever a required numeric field (bb_period,
bb_std, macd_fast, macd_slow, macd_signal, rsi_period) is missing,
non-numeric or non-positive, or macd_fast is at or above macd_slow,
validateParameters returns false and handleTestStrategy produces no
BacktestResult at all. -/
theorem validation_fails_fast (p : TestParameters) (rng : RandomDraws)
    (h : requiredParamsValid p = false ∨ paramNum p.macd_slow ≤ paramNum p.macd_fast) :
    validateParameters p = false ∧ handleTestStrategy p rng = none := by
  have hv : validateParameters p = false := by
    unfold validateParameters
    rcases h with h | h
    · simp [h]
    · simp [decide_eq_false (not_lt.mpr h)]
  exact ⟨hv, by simp [handleTestStrategy, hv]⟩

/-- Witness for validation_fails_fast at a concrete violating configuration
(macd_fast 26, macd_slow 12). -/
theorem validation_fails_fast_witness :
    (requiredParamsValid invalidTestParameters = false ∨
      paramNum invalidTestParameters.macd_slow ≤ paramNum invalidTestParameters.macd_fast) ∧
    validateParameters invalidTestParameters = false ∧
      handleTestStrategy invalidTestParameters ⟨0, 0, 0, 0, 0, 0⟩ = none :=
  ⟨Or.inr (by norm_num [paramNum, invalidTestParameters, defaultTestParameters]),
   validation_fails_fast invalidTestParameters ⟨0, 0, 0, 0, 0, 0⟩
     (Or.inr (by norm_num [paramNum, invalidTestParameters, defaultTestParameters]))⟩

/-- Claim C8, counterexample: the DashboardScreen live connection is a live
dashboard connection whose keepalive is the raw string "ping" on a 25000 ms
interval, not the JSON message on a 30000 ms interval the claim states for
every connection. -/
theorem dash_keepalive_deviates :
    dashKeepAliveOnTick WsReadyState.wsOpen = some "ping" ∧
      "ping" ≠ pingJsonMsg ∧ dashKeepAliveIntervalMs ≠ 30000 := by
  decide

/-- Claim C8 (amended): while its socket is OPEN the PriceContext connection
sends the JSON ping on its 30000 ms interval and the DashboardScreen
connection sends the raw string "ping" on its 25000 ms interval; neither
ever sends a keepalive while the socket is not OPEN, and the server
(modelled from the spec) acknowledges the JSON ping with a pong. -/
theorem keepalive_ping_only_when_open :
    priceContextPingIntervalMs = 30000 ∧ dashKeepAliveIntervalMs = 25000 ∧
    (∀ st m, priceContextPingOnTick st = some m ↔ (st = WsReadyState.wsOpen ∧ m = pingJsonMsg)) ∧
    (∀ st m, dashKeepAliveOnTick st = some m ↔ (st = WsReadyState.wsOpen ∧ m = "ping")) ∧
    serverKeepAliveReply pingJsonMsg = some pongJsonMsg := by
  refine ⟨rfl, rfl, ?_, ?_, by decide⟩
  · intro st m
    cases st <;> simp [priceContextPingOnTick, eq_comm]
  · intro st m
    cases st <;> simp [dashKeepAliveOnTick, eq_comm]

/-- A parsed message of type symbol_update reaches exactly the
symbol_update branch of PriceContext.onmessage. -/
theorem priceOnMessage_symbol_update (now : String) (m : PriceMap) (symbol : Option String)
    (data : Option PricePayload) (price change : Option ℚ) (timestamp : Option String)
    (symbols : Option (List (String × PricePayload))) :
    priceOnMessage now m (RawMsg.parsed "symbol_update" symbol data price change timestamp symbols) =
      symbolUpdateBlock now symbol data m := by
  simp [priceOnMessage]

/-- The symbol_update branch drops any message whose data.price is absent
or zero, leaving the map untouched. -/
theorem symbolUpdateBlock_falsy (now : String) (symbol : Option String)
    (data : Option PricePayload) (m : PriceMap)
    (hp : data.bind PricePayload.price = none ∨ data.bind PricePayload.price = some 0) :
    symbolUpdateBlock now symbol data m = m := by
  cases symbol with
  | none => cases data <;> rfl
  | some s =>
      cases data with
      | none => rfl
      | some d =>
          have hp' : d.price = none ∨ d.price = some 0 := by simpa using hp
          rcases hp' with h | h <;> simp [symbolUpdateBlock, h]

/-- Claim C9: handling a symbol_update message for symbol S rewrites at most
the entry for S — for every other symbol T the stored card (price, signal,
indicators, timestamp) in DashboardScreen and the stored entry in
PriceContext are exactly what they were before. -/
theorem symbol_update_frame :
    (∀ (st : DashMap) (sym : String) (inc : CardM) (t : String), t ≠ sym →
        dashSymbolUpdate st sym inc t = st t) ∧
    (∀ (now : String) (m : PriceMap) (s : String) (d : PricePayload)
        (price change : Option ℚ) (timestamp : Option String)
        (symbols : Option (List (String × PricePayload))) (t : String), t ≠ s →
        priceOnMessage now m
          (RawMsg.parsed "symbol_update" (some s) (some d) price change timestamp symbols) t = m t) := by
  constructor
  · intro st sym inc t ht
    simp [dashSymbolUpdate, ht]
  · intro now m s d price change timestamp symbols t ht
    rw [priceOnMessage_symbol_update]
    rcases hdp : d.price with _ | pr
    · simp [symbolUpdateBlock, hdp]
    · by_cases hs : s = ""
      · simp [symbolUpdateBlock, hs]
      · by_cases hz : pr = 0
        · simp [symbolUpdateBlock, hdp, hs, hz]
        · simp [symbolUpdateBlock, hdp, hs, hz, setPrice, ht]

/-- Witness for symbol_update_frame: a BTC update leaves the ETH entries of
both maps untouched. -/
theorem symbol_update_frame_witness :
    dashSymbolUpdate (fun _ => none) "BTC" emptyCardM "ETH" = none ∧
      priceOnMessage "t0" (fun _ => none)
        (RawMsg.parsed "symbol_update" (some "BTC") (some ⟨some 50000, none, none⟩)
          none none none none) "ETH" = none :=
  ⟨(symbol_update_frame.1 (fun _ => none) "BTC" emptyCardM "ETH" (by decide)).trans rfl,
   (symbol_update_frame.2 "t0" (fun _ => none) "BTC" ⟨some 50000, none, none⟩
      none none none none "ETH" (by decide)).trans rfl⟩

/-- Claim C10: a message that fails JSON parsing, carries an unhandled type,
or is a symbol_update whose data.price is absent or zero leaves the entire
PriceContext prices map unchanged; the handler is total (the try/catch turns
parse failures into a logged no-op), so no exception propagates. -/
theorem bad_message_drops_silently :
    (∀ (now : String) (m : PriceMap), priceOnMessage now m RawMsg.malformed = m) ∧
    (∀ (now : String) (m : PriceMap) (type : String) (symbol : Option String)
        (data : Option PricePayload) (price change : Option ℚ) (timestamp : Option String)
        (symbols : Option (List (String × PricePayload))),
        type ≠ "symbol_update" → type ≠ "price_update" → type ≠ "signal_update" →
        type ≠ "multi_symbol_update" →
        priceOnMessage now m (RawMsg.parsed type symbol data price change timestamp symbols) = m) ∧
    (∀ (now : String) (m : PriceMap) (symbol : Option String)
        (data : Option PricePayload) (price change : Option ℚ) (timestamp : Option String)
        (symbols : Option (List (String × PricePayload))),
        (data.bind PricePayload.price = none ∨ data.bind PricePayload.price = some 0) →
        priceOnMessage now m
          (RawMsg.parsed "symbol_update" symbol data price change timestamp symbols) = m) := by
  refine ⟨fun now m => rfl, ?_, ?_⟩
  · intro now m type symbol data price change timestamp symbols h1 h2 h3 h4
    simp [priceOnMessage, h1, h2, h3, h4]
  · intro now m symbol data price change timestamp symbols hp
    rw [priceOnMessage_symbol_update]
    exact symbolUpdateBlock_falsy now symbol data m hp

/-- Witness for bad_message_drops_silently at concrete dropped messages: a
parse failure, an unknown type, and a symbol_update with price 0. -/
theorem bad_message_drops_silently_witness :
    priceOnMessage "t0" (fun _ => none) RawMsg.malformed = (fun _ => none) ∧
    priceOnMessage "t0" (fun _ => none)
      (RawMsg.parsed "connection_status" none none none none none none) = (fun _ => none) ∧
    priceOnMessage "t0" (fun _ => none)
      (RawMsg.parsed "symbol_update" (some "BTC") (some ⟨some 0, none, none⟩)
        none none none none) = (fun _ => none) :=
  ⟨bad_message_drops_silently.1 "t0" (fun _ => none),
   bad_message_drops_silently.2.1 "t0" (fun _ => none) "connection_status" none none none none none
     none (by decide) (by decide) (by decide) (by decide),
   bad_message_drops_silently.2.2 "t0" (fun _ => none) (some "BTC") (some ⟨some 0, none, none⟩)
     none none none none (Or.inr rfl)⟩

/-- The signal emitted at each position of a replay depends only on the
candles up to that position: later candles may be replaced arbitrarily. -/
theorem runSignalsFrom_agree (cfg : StrategyConfig) (l₁ : List Candle) :
    ∀ (st : PipeState) (l₂ l₂' : List Candle) (i : ℕ), i < l₁.length →
      (runSignalsFrom cfg st (l₁ ++ l₂))[i]? = (runSignalsFrom cfg st (l₁ ++ l₂'))[i]? := by
  induction l₁ with
  | nil =>
      intro st l₂ l₂' i h
      exact absurd h (Nat.not_lt_zero i)
  | cons c rest ih =>
      intro st l₂ l₂' i h
      cases i with
      | zero => simp [runSignalsFrom]
      | succ j =>
          simp only [List.cons_append, runSignalsFrom, List.getElem?_cons_succ]
          exact ih _ l₂ l₂' j (Nat.lt_of_succ_lt_succ h)

/-- Claim C2: no look-ahead — the SignalEvent emitted for candle i is the
same whether the pipeline runs on the full sequence or on any sequence
agreeing on the first candles: altering or removing all candles after
position i (including truncating to a prefix) never changes the signal at
i, so no signal depends on later data or is revised after emission. -/
theorem signal_no_lookahead (cfg : StrategyConfig) (l₁ l₂ l₂' : List Candle) (i : ℕ)
    (h : i < l₁.length) :
    (runSignals cfg (l₁ ++ l₂))[i]? = (runSignals cfg (l₁ ++ l₂'))[i]? :=
  runSignalsFrom_agree cfg l₁ initPipeState l₂ l₂' i h

/-- Witness for signal_no_lookahead: removing the second candle leaves the
first candle's signal unchanged. -/
theorem signal_no_lookahead_witness :
    0 < [sampleCandle].length ∧
      (runSignals sampleConfig ([sampleCandle] ++ [sampleCandle2]))[0]? =
        (runSignals sampleConfig ([sampleCandle] ++ []))[0]? :=
  ⟨by decide, signal_no_lookahead sampleConfig [sampleCandle] [sampleCandle2] [] 0 (by decide)⟩

/-- decideKind returns BUY exactly when the BUY condition holds and the
SELL condition does not. -/
theorem decideKind_eq_buy_iff (b s : Bool) :
    decideKind b s = SignalKind.buy ↔ (b = true ∧ s = false) := by
  cases b <;> cases s <;> simp [decideKind]

/-- The BUY condition as a proposition. -/
theorem buySignalB_eq_true_iff (cfg : StrategyConfig) (p c : IndicatorSnapshot) (close : ℚ) :
    buySignalB cfg p c close = true ↔
      (close ≤ c.bb_lower * (1 + cfg.touch_tolerance_pct) ∧
       p.macd < p.macd_signal ∧ c.macd_signal ≤ c.macd ∧
       (cfg.rsi_filter_enabled = false ∨ c.rsi ≤ cfg.rsi_buy_max) ∧
       (cfg.trend_filter_enabled = false ∨ c.trend_ema ≤ close)) := by
  simp [buySignalB, Bool.and_eq_true, decide_eq_true_eq, Bool.or_eq_true, Bool.not_eq_true',
    and_assoc]

/-- Claim C3: for defined previous and current snapshots the evaluator
emits BUY exactly when the close is at or below the tolerance-widened lower
band, MACD crossed above its signal line on this candle (strictly below on
the previous candle, at-or-above on the current), the RSI filter is
disabled or RSI is at or below rsi_buy_max, and the trend filter is
disabled or the close is at or above the trend EMA; in particular a band
touch without the MACD cross yields NEUTRAL, never BUY. -/
theorem buy_iff_conditions (cfg : StrategyConfig) (p c : IndicatorSnapshot) (close : ℚ) :
    evalSignal cfg (some p) (some c) close = SignalKind.buy ↔
      (close ≤ c.bb_lower * (1 + cfg.touch_tolerance_pct) ∧
       p.macd < p.macd_signal ∧ c.macd_signal ≤ c.macd ∧
       (cfg.rsi_filter_enabled = false ∨ c.rsi ≤ cfg.rsi_buy_max) ∧
       (cfg.trend_filter_enabled = false ∨ c.trend_ema ≤ close)) := by
  show decideKind (buySignalB cfg p c close) (sellSignalB cfg p c close) = SignalKind.buy ↔ _
  rw [decideKind_eq_buy_iff, ← buySignalB_eq_true_iff cfg p c close]
  constructor
  · exact fun h => h.1
  · intro hb
    refine ⟨hb, ?_⟩
    have hlt : p.macd < p.macd_signal := ((buySignalB_eq_true_iff cfg p c close).mp hb).2.1
    rw [Bool.eq_false_iff]
    intro hs
    have hgt : p.macd_signal < p.macd := by
      have h' := (by simpa [sellSignalB, Bool.and_eq_true, decide_eq_true_eq] using hs :
        (((c.bb_upper * (1 - cfg.touch_tolerance_pct) ≤ close ∧ p.macd_signal < p.macd) ∧
            c.macd ≤ c.macd_signal) ∧
          (cfg.rsi_filter_enabled = false ∨ cfg.rsi_sell_min ≤ c.rsi)) ∧
        (cfg.trend_filter_enabled = false ∨ close ≤ c.trend_ema))
      exact h'.1.1.1.2
    exact absurd hgt (not_lt.mpr hlt.le)

/-- Every replay emits exactly as many signals as there are candles. -/
theorem runSignalsFrom_length (cfg : StrategyConfig) (l : List Candle) :
    ∀ st, (runSignalsFrom cfg st l).length = l.length := by
  induction l with
  | nil => intro st; rfl
  | cons c rest ih =>
      intro st
      simp only [runSignalsFrom, List.length_cons, ih]

/-- Claim C5: exactly one SignalEvent is emitted per closed candle (the
signal sequence has one entry per candle), and the tie policy resolves a
candle on which both the BUY and the SELL conditions hold to NEUTRAL. -/
theorem one_signal_per_candle_tie_neutral :
    (∀ (cfg : StrategyConfig) (l : List Candle), (runSignals cfg l).length = l.length) ∧
    (∀ b s : Bool, b = true → s = true → decideKind b s = SignalKind.neutral) := by
  constructor
  · intro cfg l
    exact runSignalsFrom_length cfg l initPipeState
  · intro b s hb hs
    subst hb
    subst hs
    rfl

/-- Witness for one_signal_per_candle_tie_neutral on a concrete candle list
and on the tie input itself. -/
theorem one_signal_per_candle_tie_neutral_witness :
    (runSignals sampleConfig [sampleCandle]).length = 1 ∧
      decideKind true true = SignalKind.neutral :=
  ⟨one_signal_per_candle_tie_neutral.1 sampleConfig [sampleCandle],
   one_signal_per_candle_tie_neutral.2 true true rfl rfl⟩

/-- FLAT absorbs: candle processing alone never reopens a position. -/
theorem processMany_flat (cfg : StrategyConfig) (l : List RiskInput) :
    processMany cfg PosState.flat l = PosState.flat := by
  induction l with
  | nil => rfl
  | cons a rest ih => simpa [processMany, processCandle] using ih

/-- One candle step: when the position stays OPEN, the trailing stop did
not decrease (it was ratcheted with max). -/
theorem processOpenCandle_mono (cfg : StrategyConfig) (p : OpenPos) (inp : RiskInput)
    (p' : OpenPos) (tr : Option TradeRecord)
    (h : processOpenCandle cfg p inp = (PosState.opened p', tr)) :
    p.trailing_stop_price ≤ p'.trailing_stop_price := by
  simp only [processOpenCandle] at h
  split at h
  · simp at h
  · split at h
    · simp at h
    · split at h
      · simp at h
      · rw [Prod.mk.injEq] at h
        obtain ⟨h1, -⟩ := h
        rw [PosState.opened.injEq] at h1
        subst h1
        exact le_max_left _ _

/-- Claim C4: for an OPEN position, every processed candle updates the
trailing stop to max(previous, close − atr × trail multiplier), so over any
run of consecutive candles throughout which the position remains OPEN the
trailing stop price is non-decreasing — it ratchets upward and never
retreats. -/
theorem trailing_stop_monotone (cfg : StrategyConfig) (l : List RiskInput) :
    ∀ p p' : OpenPos,
      processMany cfg (PosState.opened p) l = PosState.opened p' →
      p.trailing_stop_price ≤ p'.trailing_stop_price := by
  induction l with
  | nil =>
      intro p p' h
      have h' : PosState.opened p = PosState.opened p' := h
      rw [PosState.opened.injEq] at h'
      rw [h']
  | cons a rest ih =>
      intro p p' h
      simp only [processMany] at h
      rcases hstep : processCandle cfg (PosState.opened p) a with ⟨st1, tr⟩
      rw [hstep] at h
      dsimp only at h
      cases st1 with
      | flat =>
          rw [processMany_flat] at h
          exact absurd h (by simp)
      | opened q =>
          have h1 : p.trailing_stop_price ≤ q.trailing_stop_price :=
            processOpenCandle_mono cfg p a q tr (by simpa [processCandle] using hstep)
          exact le_trans h1 (ih q p' h)

/-- Witness for trailing_stop_monotone: a concrete candle on which the
position stays OPEN and the trailing stop rises from 90 to 95. -/
theorem trailing_stop_monotone_witness :
    processMany sampleConfig (PosState.opened sampleOpenPos) [sampleRiskInput] =
        PosState.opened (OpenPos.mk 100 0 90 95 1 1) ∧
      sampleOpenPos.trailing_stop_price ≤ (OpenPos.mk 100 0 90 95 1 1).trailing_stop_price := by
  have hrun : processMany sampleConfig (PosState.opened sampleOpenPos) [sampleRiskInput] =
      PosState.opened (OpenPos.mk 100 0 90 95 1 1) := by
    norm_num [processMany, processCandle, processOpenCandle, sampleConfig, sampleOpenPos,
      sampleRiskInput, max_def]
  exact ⟨hrun, trailing_stop_monotone sampleConfig [sampleRiskInput] sampleOpenPos _ hrun⟩

/-- Running the dispatcher over concatenated traces composes. -/
theorem dispRun_append (l₁ l₂ : List DispEvent) :
    ∀ st, dispRun st (l₁ ++ l₂) = dispRun (dispRun st l₁) l₂ := by
  induction l₁ with
  | nil => intro st; rfl
  | cons e rest ih =>
      intro st
      simp only [List.cons_append, dispRun]
      exact ih (dispStep st e)

/-- Delivering a live update does not change a client's id. -/
theorem deliverLive_cid (s : String) (p : ℕ) (c : ClientConn) :
    (deliverLive s p c).cid = c.cid := by
  unfold deliverLive
  split <;> rfl

/-- Looking a client up commutes with a broadcast fan-out. -/
theorem findClientIn_map_deliverLive (s : String) (p : ℕ) (cid : ℕ) :
    ∀ l : List ClientConn,
      findClientIn (l.map (deliverLive s p)) cid = (findClientIn l cid).map (deliverLive s p) := by
  intro l
  induction l with
  | nil => rfl
  | cons c rest ih =>
      simp only [List.map_cons, findClientIn, deliverLive_cid]
      split
      · rfl
      · exact ih

/-- After any further events that do not reconnect this client id, the
client is still present, its inbox has only grown at the tail, and every
appended message is a live update. -/
theorem dispRun_inbox_extends (cid : ℕ) :
    ∀ (post : List DispEvent) (st : DispState) (c : ClientConn),
      findClient st cid = some c →
      (∀ cid' subs', DispEvent.connect cid' subs' ∈ post → cid' ≠ cid) →
      ∃ ext, findClient (dispRun st post) cid = some ⟨c.cid, c.subs, c.inbox ++ ext⟩ ∧
        ∀ m ∈ ext, m.isLive = true := by
  intro post
  induction post with
  | nil =>
      intro st c hc _
      refine ⟨[], ?_, by simp⟩
      simpa using hc
  | cons e rest ih =>
      intro st c hc hconn
      have hconn' : ∀ cid' subs', DispEvent.connect cid' subs' ∈ rest → cid' ≠ cid :=
        fun a b hm => hconn a b (List.mem_cons_of_mem _ hm)
      cases e with
      | broadcast s p =>
          have hcin : findClientIn st.clients cid = some c := hc
          have hc' : findClient (dispStep st (DispEvent.broadcast s p)) cid =
              some (deliverLive s p c) := by
            show findClientIn (st.clients.map (deliverLive s p)) cid = some (deliverLive s p c)
            rw [findClientIn_map_deliverLive, hcin]
            rfl
          by_cases hsub : s ∈ c.subs
          · have hdl : deliverLive s p c = ⟨c.cid, c.subs, c.inbox ++ [DispMsg.liveMsg s p]⟩ := by
              simp [deliverLive, hsub]
            rw [hdl] at hc'
            obtain ⟨ext, hfind, hlive⟩ := ih (dispStep st (DispEvent.broadcast s p)) _ hc' hconn'
            refine ⟨DispMsg.liveMsg s p :: ext, ?_, ?_⟩
            · simpa [List.append_assoc] using hfind
            · intro m hm
              rcases List.mem_cons.mp hm with hm | hm
              · rw [hm]; rfl
              · exact hlive m hm
          · have hdl : deliverLive s p c = c := by
              simp [deliverLive, hsub]
            rw [hdl] at hc'
            exact ih (dispStep st (DispEvent.broadcast s p)) c hc' hconn'
      | connect cid' subs' =>
          have hne : cid' ≠ cid := hconn cid' subs' (List.mem_cons_self _ _)
          have hc' : findClient (dispStep st (DispEvent.connect cid' subs')) cid = some c := by
            simpa [dispStep, findClient, findClientIn, hne] using hc
          exact ih (dispStep st (DispEvent.connect cid' subs')) c hc' hconn'

/-- The messages for a symbol split over an inbox concatenation. -/
theorem msgsFor_append (s : String) :
    ∀ l₁ l₂ : List DispMsg, msgsFor s (l₁ ++ l₂) = msgsFor s l₁ ++ msgsFor s l₂ := by
  intro l₁ l₂
  induction l₁ with
  | nil => rfl
  | cons m rest ih =>
      simp only [List.cons_append, msgsFor]
      split
      · simp [ih]
      · exact ih

/-- The head of a concatenation is the head of a nonempty first part. -/
theorem head?_append_eq_some {α : Type} {l₁ : List α} {x : α} (l₂ : List α)
    (h : l₁.head? = some x) : (l₁ ++ l₂).head? = some x := by
  cases l₁ with
  | nil => cases h
  | cons a t => simpa using h

/-- Among the synthetic initial messages of a late joiner, the first one for
a cached subscribed symbol reports exactly the cached payload. -/
theorem msgsFor_initialInbox (s : String) (p : ℕ) :
    ∀ (subs : List String) (cache : List (String × ℕ)), s ∈ subs →
      cacheLookup cache s = some p →
      (msgsFor s (initialInbox cache subs)).head? = some (DispMsg.initMsg s p) := by
  intro subs
  induction subs with
  | nil =>
      intro cache hmem _
      exact absurd hmem (List.not_mem_nil s)
  | cons s0 rest ih =>
      intro cache hmem hcache
      by_cases h0 : s0 = s
      · subst h0
        simp only [initialInbox, hcache]
        simp [msgsFor, DispMsg.symOf]
      · have hmem' : s ∈ rest := by
          rcases List.mem_cons.mp hmem with h | h
          · exact absurd h.symm h0
          · exact h
        simp only [initialInbox]
        cases hcl : cacheLookup cache s0 with
        | none => exact ih cache hmem' hcache
        | some q =>
            simp only [msgsFor, DispMsg.symOf]
            rw [if_neg h0]
            exact ih cache hmem' hcache

/-- Claim C7: a client that connects after updates have already been
broadcast for a symbol it subscribes to first gets the synthetic initial
message built from the last cached update for that symbol; all messages it
ever receives afterwards are live updates, so for that symbol the initial
message is delivered and applied before any new symbol_update. -/
theorem late_join_gets_initial_first (pre post : List DispEvent) (cid : ℕ)
    (subs : List String) (s : String) (p : ℕ)
    (hsub : s ∈ subs)
    (hcache : cacheLookup (dispRun emptyDispState pre).cache s = some p)
    (hpost : ∀ cid' subs', DispEvent.connect cid' subs' ∈ post → cid' ≠ cid) :
    ∃ ext,
      findClient (dispRun emptyDispState (pre ++ DispEvent.connect cid subs :: post)) cid =
        some ⟨cid, subs, initialInbox (dispRun emptyDispState pre).cache subs ++ ext⟩ ∧
      (∀ m ∈ ext, m.isLive = true) ∧
      (msgsFor s (initialInbox (dispRun emptyDispState pre).cache subs ++ ext)).head? =
        some (DispMsg.initMsg s p) := by
  rw [dispRun_append]
  have hstep : dispRun (dispRun emptyDispState pre) (DispEvent.connect cid subs :: post) =
      dispRun (dispStep (dispRun emptyDispState pre) (DispEvent.connect cid subs)) post := rfl
  rw [hstep]
  have hfind : findClient (dispStep (dispRun emptyDispState pre) (DispEvent.connect cid subs)) cid =
      some ⟨cid, subs, initialInbox (dispRun emptyDispState pre).cache subs⟩ := by
    simp [dispStep, findClient, findClientIn]
  obtain ⟨ext, hf, hl⟩ := dispRun_inbox_extends cid post _ _ hfind hpost
  refine ⟨ext, hf, hl, ?_⟩
  rw [msgsFor_append]
  exact head?_append_eq_some _ (msgsFor_initialInbox s p subs _ hsub hcache)

/-- Witness for late_join_gets_initial_first: after two BTC broadcasts a
client joins subscribed to BTC, then one more broadcast arrives; the
client's first BTC message is the initial built from the second (cached)
update. -/
theorem late_join_gets_initial_first_witness :
    ("BTC" ∈ ["BTC"]) ∧
    ∃ ext,
      findClient (dispRun emptyDispState
          ([DispEvent.broadcast "BTC" 1, DispEvent.broadcast "BTC" 2] ++
            DispEvent.connect 7 ["BTC"] :: [DispEvent.broadcast "BTC" 3])) 7 =
        some ⟨7, ["BTC"],
          initialInbox (dispRun emptyDispState
            [DispEvent.broadcast "BTC" 1, DispEvent.broadcast "BTC" 2]).cache ["BTC"] ++ ext⟩ ∧
      (∀ m ∈ ext, m.isLive = true) ∧
      (msgsFor "BTC" (initialInbox (dispRun emptyDispState
          [DispEvent.broadcast "BTC" 1, DispEvent.broadcast "BTC" 2]).cache ["BTC"] ++ ext)).head? =
        some (DispMsg.initMsg "BTC" 2) :=
  ⟨by decide,
   late_join_gets_initial_first
     [DispEvent.broadcast "BTC" 1, DispEvent.broadcast "BTC" 2]
     [DispEvent.broadcast "BTC" 3] 7 ["BTC"] "BTC" 2
     (by decide)
     (by decide)
     (fun cid' subs' hm => by
       rcases List.mem_singleton.mp hm with h
       exact absurd h (by intro h'; cases h'))⟩

/-- Witness for buy_iff_conditions: a concrete candle satisfying all BUY
conditions (band touch, MACD cross, filters disabled) is evaluated BUY. -/
theorem buy_iff_conditions_witness :
    evalSignal sampleConfig
      (some ⟨110, 105, 100, -1, 0, -1, 50, 2, 100⟩)
      (some ⟨110, 105, 100, 1, 0, 1, 30, 2, 100⟩) 99 = SignalKind.buy :=
  (buy_iff_conditions sampleConfig ⟨110, 105, 100, -1, 0, -1, 50, 2, 100⟩
      ⟨110, 105, 100, 1, 0, 1, 30, 2, 100⟩ 99).mpr
    ⟨by norm_num [sampleConfig], by norm_num, by norm_num, Or.inl rfl, Or.inl rfl⟩

/-- Witness for keepalive_ping_only_when_open: on an OPEN socket both
keepalive callbacks fire with their respective messages. -/
theorem keepalive_ping_only_when_open_witness :
    priceContextPingOnTick WsReadyState.wsOpen = some pingJsonMsg ∧
      dashKeepAliveOnTick WsReadyState.wsOpen = some "ping" :=
  ⟨(keepalive_ping_only_when_open.2.2.1 WsReadyState.wsOpen pingJsonMsg).mpr ⟨rfl, rfl⟩,
   (keepalive_ping_only_when_open.2.2.2.1 WsReadyState.wsOpen "ping").mpr ⟨rfl, rfl⟩⟩
